import Mathlib

/-!
# Site/script.js : choropleth styling and popup text

A shallow embedding of the pure parts of `Site/script.js`:
`roundTo`, `getCategoryText`, the colour scale and `getColor`, `styleFeature`,
and the text built by the `mouseover` and `click` handlers.

Number model.  A finite JavaScript number is modelled by the rational it
denotes (`ℚ`), `NaN` by a separate constructor of `JSNum`.  Sums, products
and comparisons are the exact ones; the rounding that IEEE-754 arithmetic
adds to a sum or a product, negative zero and the infinities are outside the
model.  A decimal literal denotes its decimal value.  A number converted to a
string and read back is the same number, and a string `<digits>e<k>` read as
a number is the digits times `10^k`; the one
thing kept from `Number::toString` is which magnitudes are printed in
exponent notation (`1e-7`, `1e+21`), because `roundTo` appends a second
exponent to that string.
-/

namespace Site

/-! ## Numbers -/

/-- A JavaScript number: `NaN` or a finite value. -/
inductive JSNum where
  | nan : JSNum
  | fin (q : ℚ) : JSNum
  deriving DecidableEq

/-- The function `Math.round(x)`: the integer closest to `x`; of two equally
close integers, the one closer to `+∞`. -/
def mathRound (x : ℚ) : ℤ := ⌊x + 1 / 2⌋

/-- Whether `Number::toString` prints the finite value `v` in positional
notation (`0`, or `10^-6 ≤ |v| < 10^21`) rather than with an exponent. -/
def printsPositional (v : ℚ) : Bool :=
  decide (v = 0) || (decide (1 / 10 ^ 6 ≤ |v|) && decide (|v| < 10 ^ 21))

/-- The value `Number(s + 'e' + k)` for the string `s` of the number `v` and the
string `k` of a natural number: `v * 10^k` when `s` is positional and `k` has
no exponent of its own, `NaN` otherwise (`"1e-7e3"`, `"NaNe3"`). -/
def shiftLeft : JSNum → ℕ → JSNum
  | .nan, _ => .nan
  | .fin v, k => if printsPositional v && decide (k < 10 ^ 21) then .fin (v * 10 ^ k) else .nan

/-- The value `Number(s + 'e-' + k)`, as `shiftLeft` with the exponent negated. -/
def shiftRight : JSNum → ℕ → JSNum
  | .nan, _ => .nan
  | .fin v, k => if printsPositional v && decide (k < 10 ^ 21) then .fin (v / 10 ^ k) else .nan

/-- The function `Math.round` on a JavaScript number: `Math.round(NaN)` is `NaN`. -/
def JSNum.round : JSNum → JSNum
  | .nan => .nan
  | .fin v => .fin (mathRound v)

/-- Source: `function roundTo(value, decimals)`,
`Number(Math.round(value + 'e' + decimals) + 'e-' + decimals)`. -/
def roundTo (value : JSNum) (decimals : ℕ) : JSNum :=
  shiftRight (shiftLeft value decimals).round decimals

/-! ## Category text -/

/-- The values a property read from the GeoJSON file can have. -/
inductive JSVal where
  | undefined : JSVal
  | null : JSVal
  | bool (b : Bool) : JSVal
  | num (n : JSNum) : JSVal
  | str (s : String) : JSVal
  deriving DecidableEq

/-- Source: `function getCategoryText(cat)`; a `switch` compares with `===`,
so only the numbers 1 to 5 select a case. -/
def getCategoryText (cat : JSVal) : String :=
  if cat = .num (.fin 1) then "doing great, and are likely to meet their"
  else if cat = .num (.fin 2) then "on track to achieve their"
  else if cat = .num (.fin 3) then "tracking a bit below their"
  else if cat = .num (.fin 4) then "well below their"
  else if cat = .num (.fin 5) then "a very long way from their"
  else ""

/-! ## Colour scale -/

/-- Source: `const breaks = [0, 1.0642, ..., 10]`. -/
def breaks : List ℚ :=
  [0, 10642 / 10000, 11628 / 10000, 13778 / 10000, 15574 / 10000, 16431 / 10000,
   18035 / 10000, 21022 / 10000, 24018 / 10000, 10]

/-- The palette `d3.schemeRdBu[9]` of d3-scale-chromatic. -/
def schemeRdBu9 : List String :=
  ["#b2182b", "#d6604d", "#f4a582", "#fddbc7", "#f7f7f7", "#d1e5f0", "#92c5de",
   "#4393c3", "#2166ac"]

/-- The loop of d3-array's `bisectRight(a, x, lo, hi)`:
`while (lo < hi) { mid = (lo + hi) >>> 1; if (a[mid] <= x) lo = mid + 1; else hi = mid; }`,
with the number of remaining iterations as the first argument. -/
def bisectLoop (a : List ℚ) (x : ℚ) : ℕ → ℕ → ℕ → ℕ
  | 0, lo, _ => lo
  | fuel + 1, lo, hi =>
    if lo < hi then
      let mid := (lo + hi) / 2
      if a.getD mid 0 ≤ x then bisectLoop a x fuel (mid + 1) hi
      else bisectLoop a x fuel lo mid
    else lo

/-- The function `bisectRight(a, x, lo, hi)` of d3-array; `hi - lo` iterations
are always enough, as every iteration shrinks the interval. -/
def bisectRight (a : List ℚ) (x : ℚ) (lo hi : ℕ) : ℕ :=
  bisectLoop a x (hi - lo) lo hi

/-- The state of a d3 threshold scale: its domain, its range and the number
`n` of thresholds it looks at. -/
structure ThresholdScale where
  domain : List ℚ
  range : List String
  n : ℕ

/-- The scale `d3.scaleThreshold()` starts from: domain `[0.5]`, range
`[0, 1]` (two entries, here two placeholder strings), `n = 1`. -/
def scaleThreshold : ThresholdScale :=
  { domain := [1 / 2], range := ["0", "1"], n := 1 }

/-- The setter `scale.domain(_)` of d3-scale:
`domain = Array.from(_), n = Math.min(domain.length, range.length - 1)`. -/
def ThresholdScale.setDomain (s : ThresholdScale) (d : List ℚ) : ThresholdScale :=
  { s with domain := d, n := min d.length (s.range.length - 1) }

/-- The setter `scale.range(_)` of d3-scale:
`range = Array.from(_), n = Math.min(domain.length, range.length - 1)`. -/
def ThresholdScale.setRange (s : ThresholdScale) (r : List String) : ThresholdScale :=
  { s with range := r, n := min s.domain.length (r.length - 1) }

/-- Applying a d3 threshold scale:
`x != null && x <= x ? range[bisect(domain, x, 0, n)] : unknown`;
`none` is `undefined`. -/
def ThresholdScale.apply (s : ThresholdScale) : JSNum → Option String
  | .nan => none
  | .fin x => s.range.get? (bisectRight s.domain x 0 s.n)

/-- Source: `const colorScale = d3.scaleThreshold().domain(breaks)
.range(d3.schemeRdBu[9].reverse())`. -/
def colorScale : ThresholdScale :=
  (scaleThreshold.setDomain breaks).setRange schemeRdBu9.reverse

/-- Source: `function getColor(value)`; the `console.log` is left out. -/
def getColor (value : JSNum) : Option String :=
  colorScale.apply value

/-- The style object `styleFeature` returns. -/
structure Style where
  color : String
  weight : ℕ
  opacity : ℚ
  fillOpacity : ℚ
  fillColor : Option String
  interactive : Bool
  deriving DecidableEq

/-- The `properties` of a GeoJSON feature.  The numeric properties are
numbers read from a JSON file, so they are finite. -/
structure Feature where
  LGA : String
  Curr : ℚ
  Add : ℚ
  PcInc : ℚ
  ReqYearly : ℚ
  HistYearly : ℚ
  MultiNeed : ℚ
  Shortfall : ℚ
  Cat : JSVal

/-- The call `parseFloat(x)` for a finite number `x`: its string read back. -/
def parseFloat (x : ℚ) : JSNum := .fin x

/-- Source: `function styleFeature(feature)`. -/
def styleFeature (feature : Feature) : Style :=
  let rawMultiNeed := parseFloat feature.MultiNeed
  let multiNeed := roundTo rawMultiNeed 3
  let fillColor := getColor multiNeed
  { color := "white"
    weight := 2
    opacity := 1
    fillOpacity := 35 / 100
    fillColor := fillColor
    interactive := true }

/-! ## Number formatting -/

/-- The integer `n` of `Number.prototype.toFixed` for `x ≥ 0`: the one for
which `n / 10^f - x` is closest to zero, the larger one of two. -/
def fixedDigits (x : ℚ) (f : ℕ) : ℕ := ⌊x * 10 ^ f + 1 / 2⌋.toNat

/-- Puts the decimal point of `toFixed` into the digits `m` of `n`: pads with
zeros on the left up to `f + 1` digits and inserts `.` before the last `f`. -/
def insertPoint (m : List Char) (f : ℕ) : List Char :=
  if f = 0 then m
  else
    let m := List.replicate (f + 1 - m.length) '0' ++ m
    m.take (m.length - f) ++ '.' :: m.drop (m.length - f)

/-- The call `x.toFixed(f)` for a finite `x` with `|x| < 10^21`: the sign, then
the digits of `fixedDigits |x| f` with the decimal point.  (From `10^21` on
JavaScript returns the exponent form of `x`; statements about `toFixed` are
made below that bound.) -/
def toFixed (x : ℚ) (f : ℕ) : String :=
  (if x < 0 then "-" else "") ++
    String.mk (insertPoint (Nat.toDigits 10 (fixedDigits |x| f)) f)

/-- Inserts `,` after every third character of a reversed digit string. -/
def groupRev : List Char → List Char
  | a :: b :: c :: d :: rest => a :: b :: c :: ',' :: groupRev (d :: rest)
  | ds => ds

/-- Groups the digits of an integer in threes from the right: `1,234,567`. -/
def groupThousands (ds : List Char) : List Char := (groupRev ds.reverse).reverse

/-- Drops the trailing zeros of a digit string. -/
def dropTrailingZeros (ds : List Char) : List Char :=
  (ds.reverse.dropWhile (· == '0')).reverse

/-- The call `x.toLocaleString()` with no arguments in an English locale: at
most three fraction digits (half away from zero), no trailing zeros, the
integer part grouped in threes with commas. -/
def toLocaleString (x : ℚ) : String :=
  let m := fixedDigits |x| 3
  let ds := Nat.toDigits 10 (m % 1000)
  let frac := dropTrailingZeros (List.replicate (3 - ds.length) '0' ++ ds)
  (if x < 0 then "-" else "") ++
    String.mk (groupThousands (Nat.toDigits 10 (m / 1000)) ++
      (if frac = [] then [] else '.' :: frac))

/-! ## Popup text -/

/-- The `popupContent` of the `click` handler. -/
def click (feature : Feature) : String :=
  "\n                            <div class=\"popup-header\">" ++ feature.LGA ++
  "</div>\n                            <p>Current dwellings: <span class=\"dynamic-attribute\">" ++
  toLocaleString feature.Curr ++
  "</span></p>\n                            <p>2051 target: <span class=\"dynamic-attribute\">" ++
  toLocaleString (feature.Curr + feature.Add) ++
  "</span></p>\n                            <p>The 2051 target calls for an additional <span class=\"dynamic-attribute\">" ++
  toLocaleString (mathRound feature.Add) ++
  "</span> dwellings, a <span class=\"dynamic-attribute\">" ++
  toFixed (feature.PcInc * 100) 0 ++
  "%</span> increase, or <span class=\"dynamic-attribute\">" ++
  toLocaleString (mathRound feature.ReqYearly) ++
  "</span> dwellings every year until the end of 2051.</p>\n                            <p>Based on the last 10 years of dwelling construction in " ++
  feature.LGA ++ ", <span class=\"dynamic-attribute\">" ++
  toLocaleString (mathRound feature.HistYearly) ++
  "</span> per year were constructed, so the 2051 target requires new dwellings to be built at <span class=\"dynamic-attribute\">" ++
  toFixed feature.MultiNeed 1 ++
  "<span style=\"color: red;\">x</span></span> the historical rate.</p>\n                            <p>So " ++
  feature.LGA ++ " is <span class=\"dynamic-attribute\">" ++
  getCategoryText feature.Cat ++
  "</span> 2051 target.</p>\n                        "

/-- Whether `sub` occurs in `text` as a run of consecutive characters. -/
def contains (text sub : String) : Prop := sub.data <:+: text.data

instance (text sub : String) : Decidable (contains text sub) := by
  unfold contains; infer_instance

/-- The characters of a piece of markup that lie outside its tags `<...>`; the
flag says whether the scan is inside a tag. -/
def stripTags : List Char → Bool → List Char
  | [], _ => []
  | c :: cs, true => if c = '>' then stripTags cs false else stripTags cs true
  | c :: cs, false => if c = '<' then stripTags cs true else c :: stripTags cs false

/-- The text a popup shows for the markup `s`. -/
def textContent (s : String) : String := String.mk (stripTags s.data false)

/-- Following the spec's words for `colorFor`: the colour at the index of the
smallest boundary `b` with `v < b`, and the final colour when `v` is below no
boundary. -/
def specColorFor (bs : List ℚ) (colors : List String) (v : ℚ) : Option String :=
  match bs.findIdx? (fun b => decide (v < b)) with
  | some i => colors.get? i
  | none => colors.getLast?

/-- The feature of the spec's `clickDetail` example. -/
def exampleFeature : Feature :=
  { LGA := "X", Curr := 1000, Add := 2346 / 10, PcInc := 15 / 100, ReqYearly := 8234 / 10,
    HistYearly := 500, MultiNeed := 1647 / 1000, Shortfall := 0, Cat := .num (.fin 3) }

/-! ## Lemmas -/

/-- The first eight boundaries, the only ones the binary search reads. -/
theorem breaks_eq : breaks = breaks.take 8 ++ [24018 / 10000, 10] := rfl

/-- The binary search over the first eight boundaries, whatever follows them. -/
theorem bisectRight_take (tl : List ℚ) (x : ℚ) :
    bisectRight (breaks.take 8 ++ tl) x 0 8 =
      if x < 0 then 0
      else if x < 10642 / 10000 then 1
      else if x < 11628 / 10000 then 2
      else if x < 13778 / 10000 then 3
      else if x < 15574 / 10000 then 4
      else if x < 16431 / 10000 then 5
      else if x < 18035 / 10000 then 6
      else if x < 21022 / 10000 then 7
      else 8 := by
  simp only [bisectRight, bisectLoop, breaks, List.take, List.cons_append, List.nil_append]
  simp only [List.getD_cons_zero, List.getD_cons_succ, Nat.reduceAdd, Nat.reduceDiv,
    Nat.reduceSub, Nat.reduceLT, if_true, if_false, Nat.sub_zero, Nat.lt_irrefl]
  simp only [← not_le, ite_not]
  split_ifs <;> first | rfl | (exfalso; linarith)

/-- The scale built from the first eight boundaries followed by `tl`. -/
theorem apply_take (tl : List ℚ) (x : ℚ) :
    ((scaleThreshold.setDomain (breaks.take 8 ++ tl)).setRange schemeRdBu9.reverse).apply
        (.fin x) =
      if x < 0 then some "#2166ac"
      else if x < 10642 / 10000 then some "#4393c3"
      else if x < 11628 / 10000 then some "#92c5de"
      else if x < 13778 / 10000 then some "#d1e5f0"
      else if x < 15574 / 10000 then some "#f7f7f7"
      else if x < 16431 / 10000 then some "#fddbc7"
      else if x < 18035 / 10000 then some "#f4a582"
      else if x < 21022 / 10000 then some "#d6604d"
      else some "#b2182b" := by
  have hn : ((scaleThreshold.setDomain (breaks.take 8 ++ tl)).setRange
      schemeRdBu9.reverse).n = 8 := by
    simp [ThresholdScale.setRange, ThresholdScale.setDomain, breaks, schemeRdBu9]
  simp only [ThresholdScale.apply, hn]
  simp only [ThresholdScale.setRange, ThresholdScale.setDomain, bisectRight_take]
  split_ifs <;> rfl

theorem getColor_fin (x : ℚ) :
    getColor (.fin x) =
      if x < 0 then some "#2166ac"
      else if x < 10642 / 10000 then some "#4393c3"
      else if x < 11628 / 10000 then some "#92c5de"
      else if x < 13778 / 10000 then some "#d1e5f0"
      else if x < 15574 / 10000 then some "#f7f7f7"
      else if x < 16431 / 10000 then some "#fddbc7"
      else if x < 18035 / 10000 then some "#f4a582"
      else if x < 21022 / 10000 then some "#d6604d"
      else some "#b2182b" := by
  have h := apply_take [24018 / 10000, 10] x
  rw [← breaks_eq] at h
  exact h

theorem mathRound_eq (x : ℚ) (k : ℤ) (h1 : (k : ℚ) ≤ x + 1 / 2) (h2 : x + 1 / 2 < k + 1) :
    mathRound x = k := by
  unfold mathRound
  rw [Int.floor_eq_iff]
  exact ⟨h1, h2⟩

/-- What `roundTo` computes for a finite value. -/
theorem roundTo_fin (value : ℚ) (decimals : ℕ) :
    roundTo (.fin value) decimals =
      if printsPositional value && decide (decimals < 10 ^ 21) &&
          printsPositional (mathRound (value * 10 ^ decimals) : ℚ) then
        .fin (mathRound (value * 10 ^ decimals) / 10 ^ decimals)
      else .nan := by
  cases hp : printsPositional value <;> cases hd : decide (decimals < 10 ^ 21) <;>
    simp only [roundTo, shiftLeft, shiftRight, JSNum.round, hp, hd, Bool.and_self,
      Bool.and_true, Bool.and_false, Bool.true_and, Bool.false_and, Bool.false_eq_true,
      if_true, if_false]

theorem fixedDigits_eq (x : ℚ) (f n : ℕ) (h1 : (n : ℚ) ≤ x * 10 ^ f + 1 / 2)
    (h2 : x * 10 ^ f + 1 / 2 < n + 1) : fixedDigits x f = n := by
  unfold fixedDigits
  have : ⌊x * 10 ^ f + 1 / 2⌋ = (n : ℤ) := by
    rw [Int.floor_eq_iff]
    exact ⟨by exact_mod_cast h1, by exact_mod_cast h2⟩
  rw [this, Int.toNat_natCast]

theorem toLocaleString_eq (x : ℚ) (m : ℕ) (h : fixedDigits |x| 3 = m) :
    toLocaleString x = (if x < 0 then "-" else "") ++
      String.mk (groupThousands (Nat.toDigits 10 (m / 1000)) ++
        (if dropTrailingZeros (List.replicate (3 - (Nat.toDigits 10 (m % 1000)).length) '0' ++
            Nat.toDigits 10 (m % 1000)) = [] then []
         else '.' :: dropTrailingZeros
          (List.replicate (3 - (Nat.toDigits 10 (m % 1000)).length) '0' ++
            Nat.toDigits 10 (m % 1000)))) := by
  subst h
  rfl

theorem toFixed_eq (x : ℚ) (f n : ℕ) (h : fixedDigits |x| f = n) :
    toFixed x f = (if x < 0 then "-" else "") ++
      String.mk (insertPoint (Nat.toDigits 10 n) f) := by
  subst h
  rfl

theorem click_exampleFeature :
    click exampleFeature =
      "\n                            <div class=\"popup-header\">X</div>\n                            <p>Current dwellings: <span class=\"dynamic-attribute\">1,000</span></p>\n                            <p>2051 target: <span class=\"dynamic-attribute\">1,234.6</span></p>\n                            <p>The 2051 target calls for an additional <span class=\"dynamic-attribute\">235</span> dwellings, a <span class=\"dynamic-attribute\">15%</span> increase, or <span class=\"dynamic-attribute\">823</span> dwellings every year until the end of 2051.</p>\n                            <p>Based on the last 10 years of dwelling construction in X, <span class=\"dynamic-attribute\">500</span> per year were constructed, so the 2051 target requires new dwellings to be built at <span class=\"dynamic-attribute\">1.6<span style=\"color: red;\">x</span></span> the historical rate.</p>\n                            <p>So X is <span class=\"dynamic-attribute\">tracking a bit below their</span> 2051 target.</p>\n                        " := by
  have e1 : toLocaleString (1000 : ℚ) = "1,000" := by
    rw [toLocaleString_eq _ 1000000
      (fixedDigits_eq _ _ _ (by norm_num [abs_of_pos]) (by norm_num [abs_of_pos])),
      if_neg (by norm_num)]
    decide
  have e2 : toLocaleString ((1000 : ℚ) + 2346 / 10) = "1,234.6" := by
    rw [toLocaleString_eq _ 1234600
      (fixedDigits_eq _ _ _ (by norm_num [abs_of_pos]) (by norm_num [abs_of_pos])),
      if_neg (by norm_num)]
    decide
  have r3 : mathRound (2346 / 10) = 235 := mathRound_eq _ _ (by norm_num) (by norm_num)
  have e3 : toLocaleString ((235 : ℤ) : ℚ) = "235" := by
    rw [toLocaleString_eq _ 235000
      (fixedDigits_eq _ _ _ (by norm_num [abs_of_pos]) (by norm_num [abs_of_pos])),
      if_neg (by norm_num)]
    decide
  have e4 : toFixed ((15 : ℚ) / 100 * 100) 0 = "15" := by
    rw [toFixed_eq _ _ 15
      (fixedDigits_eq _ _ _ (by norm_num [abs_of_pos]) (by norm_num [abs_of_pos])),
      if_neg (by norm_num)]
    decide
  have r5 : mathRound (8234 / 10) = 823 := mathRound_eq _ _ (by norm_num) (by norm_num)
  have e5 : toLocaleString ((823 : ℤ) : ℚ) = "823" := by
    rw [toLocaleString_eq _ 823000
      (fixedDigits_eq _ _ _ (by norm_num [abs_of_pos]) (by norm_num [abs_of_pos])),
      if_neg (by norm_num)]
    decide
  have r6 : mathRound 500 = 500 := mathRound_eq _ _ (by norm_num) (by norm_num)
  have e6 : toLocaleString ((500 : ℤ) : ℚ) = "500" := by
    rw [toLocaleString_eq _ 500000
      (fixedDigits_eq _ _ _ (by norm_num [abs_of_pos]) (by norm_num [abs_of_pos])),
      if_neg (by norm_num)]
    decide
  have e7 : toFixed ((1647 : ℚ) / 1000) 1 = "1.6" := by
    rw [toFixed_eq _ _ 16
      (fixedDigits_eq _ _ _ (by norm_num [abs_of_pos]) (by norm_num [abs_of_pos])),
      if_neg (by norm_num)]
    decide
  have e8 : getCategoryText (.num (.fin 3)) = "tracking a bit below their" := by
    norm_num [getCategoryText]
  simp only [click, exampleFeature, e1, e2, r3, e3, e4, r5, e5, r6, e6, e7, e8,
    String.reduceAppend]


/-! ## Claims -/

/-- C1, as stated, fails at `v = 3`: the smallest boundary above 3 is `10`, at
index 9, where the nine-colour palette has no colour, while `getColor(3)` is
the last palette colour. -/
theorem getColor_not_spec_at_3 :
    getColor (.fin 3) = some "#b2182b" ∧
      specColorFor breaks schemeRdBu9.reverse 3 = none ∧
      getColor (.fin 3) ≠ specColorFor breaks schemeRdBu9.reverse 3 := by
  have h1 : getColor (.fin 3) = some "#b2182b" := by
    rw [getColor_fin]; norm_num
  have h2 : specColorFor breaks schemeRdBu9.reverse 3 = none := by
    simp [specColorFor, breaks, List.findIdx?, schemeRdBu9]
    norm_num
  refine ⟨h1, h2, ?_⟩
  rw [h1, h2]
  simp

/-- C1 (amended): for every finite `v`, `getColor v` is the palette colour at
the index of the smallest of the first eight boundaries that is above `v`, and
the final palette colour when none of the eight is; a boundary belongs to the
bucket above it (`1.0642` has the colour of `[1.0642, 1.1628)` and not that of
`[0, 1.0642)`), `v < 0` gives the first colour and `v > 10` the last. -/
theorem getColor_threshold (v : ℚ) :
    getColor (.fin v) = specColorFor (breaks.take 8) schemeRdBu9.reverse v ∧
      (∃ c, getColor (.fin v) = some c) ∧
      (10642 / 10000 ≤ v → v < 11628 / 10000 →
        getColor (.fin v) = getColor (.fin (10642 / 10000))) ∧
      (0 ≤ v → v < 10642 / 10000 → getColor (.fin v) ≠ getColor (.fin (10642 / 10000))) ∧
      (v < 0 → getColor (.fin v) = schemeRdBu9.reverse.head?) ∧
      (10 < v → getColor (.fin v) = schemeRdBu9.reverse.getLast?) := by
  have hb : getColor (.fin (10642 / 10000)) = some "#92c5de" := by
    rw [getColor_fin]; norm_num
  refine ⟨?_, ?_, ?_, ?_, ?_, ?_⟩
  · rw [getColor_fin]
    simp only [specColorFor, breaks, List.take, List.findIdx?, decide_eq_true_eq]
    split_ifs <;> rfl
  · rw [getColor_fin]
    split_ifs <;> exact ⟨_, rfl⟩
  · intro h1 h2
    rw [hb, getColor_fin]
    have e0 : ¬ v < 0 := by linarith
    have e1 : ¬ v < 10642 / 10000 := by linarith
    simp only [e0, e1, h2, if_true, if_false]
  · intro h1 h2
    rw [hb, getColor_fin]
    have e0 : ¬ v < 0 := by linarith
    simp only [e0, h2, if_true, if_false]
    decide
  · intro h
    rw [getColor_fin, if_pos h]
    rfl
  · intro h
    rw [getColor_fin]
    have e : ∀ b : ℚ, b ≤ 10 → ¬ v < b := fun b hb => by linarith
    simp only [e 0 (by norm_num), e (10642 / 10000) (by norm_num), e (11628 / 10000) (by norm_num),
      e (13778 / 10000) (by norm_num), e (15574 / 10000) (by norm_num),
      e (16431 / 10000) (by norm_num), e (18035 / 10000) (by norm_num),
      e (21022 / 10000) (by norm_num), if_false]
    rfl

/-- C9: the scale looks at `min(10, 9 - 1) = 8` boundaries only; every
`v ≥ 2.1022` gets the same last palette colour, replacing the boundaries
`2.4018` and `10` by any other two numbers changes no result, and `getColor`
takes exactly nine values over the finite numbers. -/
theorem getColor_eight_boundaries :
    colorScale.n = min 10 (9 - 1) ∧ colorScale.n = 8 ∧
      (∀ v : ℚ, 21022 / 10000 ≤ v → getColor (.fin v) = schemeRdBu9.reverse.getLast?) ∧
      (∀ b8 b9 v : ℚ,
        ((scaleThreshold.setDomain (breaks.take 8 ++ [b8, b9])).setRange
          schemeRdBu9.reverse).apply (.fin v) = getColor (.fin v)) ∧
      getColor (.fin (22 / 10)) = getColor (.fin 3) ∧
      getColor (.fin 3) = getColor (.fin 11) ∧
      (Set.range fun v : ℚ => getColor (.fin v)).ncard = 9 := by
  refine ⟨by decide, by decide, ?_, ?_, ?_, ?_, ?_⟩
  · intro v h
    rw [getColor_fin]
    have e : ∀ b : ℚ, b ≤ 21022 / 10000 → ¬ v < b := fun b hb => by linarith
    simp only [e 0 (by norm_num), e (10642 / 10000) (by norm_num), e (11628 / 10000) (by norm_num),
      e (13778 / 10000) (by norm_num), e (15574 / 10000) (by norm_num),
      e (16431 / 10000) (by norm_num), e (18035 / 10000) (by norm_num),
      e (21022 / 10000) (by norm_num), if_false]
    rfl
  · intro b8 b9 v
    rw [getColor_fin, apply_take]
  · rw [getColor_fin, getColor_fin]; norm_num
  · rw [getColor_fin, getColor_fin]; norm_num
  · have hr : (Set.range fun v : ℚ => getColor (.fin v)) =
        ((schemeRdBu9.map some).toFinset : Set (Option String)) := by
      ext c
      simp only [Set.mem_range, Finset.mem_coe, List.mem_toFinset]
      constructor
      · rintro ⟨v, rfl⟩
        rw [getColor_fin]
        split_ifs <;> decide
      · intro hc
        simp only [schemeRdBu9, List.map, List.mem_cons, List.mem_singleton, List.not_mem_nil,
          or_false] at hc
        rcases hc with h | h | h | h | h | h | h | h | h
        · exact ⟨3, by rw [h, getColor_fin]; norm_num⟩
        · exact ⟨2, by rw [h, getColor_fin]; norm_num⟩
        · exact ⟨17 / 10, by rw [h, getColor_fin]; norm_num⟩
        · exact ⟨16 / 10, by rw [h, getColor_fin]; norm_num⟩
        · exact ⟨15 / 10, by rw [h, getColor_fin]; norm_num⟩
        · exact ⟨12 / 10, by rw [h, getColor_fin]; norm_num⟩
        · exact ⟨11 / 10, by rw [h, getColor_fin]; norm_num⟩
        · exact ⟨1, by rw [h, getColor_fin]; norm_num⟩
        · exact ⟨-1, by rw [h, getColor_fin]; norm_num⟩
    rw [hr, Set.ncard_coe_Finset]
    decide

/-- C4: `styleFeature` returns the white outline of weight 2 and opacity 1,
`fillOpacity` 0.35, `interactive` true, and as `fillColor` the colour of
`MultiNeed` rounded to three decimals. -/
theorem styleFeature_eq (feature : Feature) :
    styleFeature feature =
      { color := "white", weight := 2, opacity := 1, fillOpacity := 35 / 100,
        fillColor := getColor (roundTo (.fin feature.MultiNeed) 3), interactive := true } ∧
      (styleFeature feature).fillOpacity = 35 / 100 ∧ (styleFeature feature).color = "white" :=
  ⟨rfl, rfl, rfl⟩

/-- C6: `getCategoryText` returns the five fixed phrases for the numbers 1 to
5, pairwise different and non-empty, and the empty string for every other
value. -/
theorem getCategoryText_table (cat : JSVal) :
    getCategoryText (.num (.fin 1)) = "doing great, and are likely to meet their" ∧
      getCategoryText (.num (.fin 2)) = "on track to achieve their" ∧
      getCategoryText (.num (.fin 3)) = "tracking a bit below their" ∧
      getCategoryText (.num (.fin 4)) = "well below their" ∧
      getCategoryText (.num (.fin 5)) = "a very long way from their" ∧
      ([(1 : ℚ), 2, 3, 4, 5].map fun n => getCategoryText (.num (.fin n))).Nodup ∧
      (∀ n ∈ [(1 : ℚ), 2, 3, 4, 5], getCategoryText (.num (.fin n)) ≠ "") ∧
      ((∀ n ∈ [(1 : ℚ), 2, 3, 4, 5], cat ≠ .num (.fin n)) → getCategoryText cat = "") ∧
      getCategoryText (.num (.fin 0)) = "" ∧ getCategoryText (.num (.fin 6)) = "" ∧
      getCategoryText (.num (.fin (-1))) = "" := by
  have h1 : getCategoryText (.num (.fin 1)) = "doing great, and are likely to meet their" := by
    simp [getCategoryText]
  have h2 : getCategoryText (.num (.fin 2)) = "on track to achieve their" := by
    simp [getCategoryText]
  have h3 : getCategoryText (.num (.fin 3)) = "tracking a bit below their" := by
    simp [getCategoryText]
  have h4 : getCategoryText (.num (.fin 4)) = "well below their" := by
    simp [getCategoryText]
  have h5 : getCategoryText (.num (.fin 5)) = "a very long way from their" := by
    simp [getCategoryText]
  refine ⟨h1, h2, h3, h4, h5, ?_, ?_, ?_, ?_, ?_, ?_⟩
  · simp only [List.map, h1, h2, h3, h4, h5]
    decide
  · intro n hn
    simp only [List.mem_cons, List.mem_singleton, List.not_mem_nil, or_false] at hn
    rcases hn with rfl | rfl | rfl | rfl | rfl
    · rw [h1]; decide
    · rw [h2]; decide
    · rw [h3]; decide
    · rw [h4]; decide
    · rw [h5]; decide
  · intro h
    simp only [List.mem_cons, List.mem_singleton, List.not_mem_nil, or_false] at h
    simp [getCategoryText, h 1, h 2, h 3, h 4, h 5]
  · simp [getCategoryText]
  · norm_num [getCategoryText]
  · norm_num [getCategoryText]

/-- C8, as stated, fails: two features that differ only in `MultiNeed`, 1.61
and 1.647, have the same click text (both show `1.6`) and different fill
colours. -/
theorem same_figure_different_color :
    toFixed ({ exampleFeature with MultiNeed := 161 / 100 } : Feature).MultiNeed 1 = "1.6" ∧
      toFixed exampleFeature.MultiNeed 1 = "1.6" ∧
      click { exampleFeature with MultiNeed := 161 / 100 } = click exampleFeature ∧
      (styleFeature { exampleFeature with MultiNeed := 161 / 100 }).fillColor = some "#fddbc7" ∧
      (styleFeature exampleFeature).fillColor = some "#f4a582" ∧
      (styleFeature { exampleFeature with MultiNeed := 161 / 100 }).fillColor ≠
        (styleFeature exampleFeature).fillColor := by
  have e1 : toFixed ((161 : ℚ) / 100) 1 = "1.6" := by
    rw [toFixed_eq _ _ 16
      (fixedDigits_eq _ _ _ (by norm_num [abs_of_pos]) (by norm_num [abs_of_pos])),
      if_neg (by norm_num)]
    decide
  have e2 : toFixed ((1647 : ℚ) / 1000) 1 = "1.6" := by
    rw [toFixed_eq _ _ 16
      (fixedDigits_eq _ _ _ (by norm_num [abs_of_pos]) (by norm_num [abs_of_pos])),
      if_neg (by norm_num)]
    decide
  have r1 : mathRound ((161 : ℚ) / 100 * 10 ^ 3) = 1610 :=
    mathRound_eq _ _ (by norm_num) (by norm_num)
  have r2 : mathRound ((1647 : ℚ) / 1000 * 10 ^ 3) = 1647 :=
    mathRound_eq _ _ (by norm_num) (by norm_num)
  have c1 : (styleFeature { exampleFeature with MultiNeed := 161 / 100 }).fillColor =
      some "#fddbc7" := by
    simp only [styleFeature, parseFloat]
    rw [roundTo_fin, r1]
    norm_num [printsPositional, abs_of_pos, getColor_fin]
  have c2 : (styleFeature exampleFeature).fillColor = some "#f4a582" := by
    simp only [styleFeature, parseFloat, exampleFeature]
    rw [roundTo_fin, r2]
    norm_num [printsPositional, abs_of_pos, getColor_fin]
  refine ⟨e1, e2, ?_, c1, c2, ?_⟩
  · simp only [click, exampleFeature, e1, e2]
  · rw [c1, c2]
    decide

/-- C8 (amended): the fill colour is looked up with `MultiNeed` rounded to three
decimals, so two features with the same three-decimal value get the same
`fillColor`. -/
theorem fillColor_of_roundTo (a b : Feature)
    (h : roundTo (.fin a.MultiNeed) 3 = roundTo (.fin b.MultiNeed) 3) :
    (styleFeature a).fillColor = getColor (roundTo (.fin a.MultiNeed) 3) ∧
      (styleFeature a).fillColor = (styleFeature b).fillColor := by
  refine ⟨rfl, ?_⟩
  show getColor (roundTo (.fin a.MultiNeed) 3) = getColor (roundTo (.fin b.MultiNeed) 3)
  rw [h]

/-- C8 (amended) at `MultiNeed` 1.6471 and 1.6474, both 1.647 to three
decimals. -/
theorem fillColor_of_roundTo_witness :
    roundTo (.fin ({ exampleFeature with MultiNeed := 16471 / 10000 } : Feature).MultiNeed) 3 =
        roundTo (.fin ({ exampleFeature with MultiNeed := 16474 / 10000 } : Feature).MultiNeed) 3 ∧
      (styleFeature { exampleFeature with MultiNeed := 16471 / 10000 }).fillColor =
        (styleFeature { exampleFeature with MultiNeed := 16474 / 10000 }).fillColor := by
  have r1 : mathRound ((16471 : ℚ) / 10000 * 10 ^ 3) = 1647 :=
    mathRound_eq _ _ (by norm_num) (by norm_num)
  have r2 : mathRound ((16474 : ℚ) / 10000 * 10 ^ 3) = 1647 :=
    mathRound_eq _ _ (by norm_num) (by norm_num)
  have h : roundTo (.fin ({ exampleFeature with MultiNeed := 16471 / 10000 } : Feature).MultiNeed) 3 =
      roundTo (.fin ({ exampleFeature with MultiNeed := 16474 / 10000 } : Feature).MultiNeed) 3 := by
    rw [roundTo_fin, roundTo_fin, r1, r2]
    norm_num [printsPositional, abs_of_pos]
  exact ⟨h, (fillColor_of_roundTo _ _ h).2⟩


/-- C7 at the spec's example feature: the text the click popup shows has
`1,000`, `235`, `15%`, `823`, `500`, `1.6x` and the category phrase; the 2051
target `Curr + Add` is printed unrounded, `1,234.6`, where the additional
dwellings `Add` next to it are rounded, and `1,235` occurs nowhere in the
text. -/
theorem click_target_not_rounded :
    contains (textContent (click exampleFeature)) "1,000" ∧
      contains (textContent (click exampleFeature)) "235" ∧
      contains (textContent (click exampleFeature)) "15%" ∧
      contains (textContent (click exampleFeature)) "823" ∧
      contains (textContent (click exampleFeature)) "500" ∧
      contains (textContent (click exampleFeature)) "1.6x" ∧
      contains (textContent (click exampleFeature)) "tracking a bit below their" ∧
      toLocaleString (exampleFeature.Curr + exampleFeature.Add) = "1,234.6" ∧
      contains (textContent (click exampleFeature)) "2051 target: 1,234.6" ∧
      toLocaleString (mathRound exampleFeature.Add) = "235" ∧
      ¬ contains (textContent (click exampleFeature)) "1,235" ∧
      ¬ contains (click exampleFeature) "1,235" := by
  have e2 : toLocaleString ((1000 : ℚ) + 2346 / 10) = "1,234.6" := by
    rw [toLocaleString_eq _ 1234600
      (fixedDigits_eq _ _ _ (by norm_num [abs_of_pos]) (by norm_num [abs_of_pos])),
      if_neg (by norm_num)]
    decide
  have r3 : mathRound (2346 / 10) = 235 := mathRound_eq _ _ (by norm_num) (by norm_num)
  have e3 : toLocaleString ((235 : ℤ) : ℚ) = "235" := by
    rw [toLocaleString_eq _ 235000
      (fixedDigits_eq _ _ _ (by norm_num [abs_of_pos]) (by norm_num [abs_of_pos])),
      if_neg (by norm_num)]
    decide
  rw [click_exampleFeature]
  refine ⟨by decide!, by decide!, by decide!, by decide!, by decide!, by decide!, by decide!,
    e2, by decide!, ?_, by decide!, by decide!⟩
  simp only [exampleFeature, r3, e3]

end Site
